import Mathlib

/-!
Shallow embedding of `tts_server.py`, a small Flask TTS gateway with three
routes: `POST /tts` (ElevenLabs), `POST /tts/sarvam` (Sarvam AI) and
`GET /health`.  Python values appearing in request/response JSON are modelled
by the inductive `Json`; Python exceptions by `PyExn`; the upstream
`requests.post` call by an oracle function passed to each handler.  A handler
returns `Except PyExn HttpResp`: `.ok` is a response produced by the handler
itself, `.error` is an exception that escaped the handler uncaught (and is
then handled by the Flask framework, not by the handler's code).
-/

namespace TtsServer

/-- Model of a Python/JSON value as produced by `request.json` or
`response.json()`. -/
inductive Json where
  | null
  | bool (b : Bool)
  | int (n : Int)
  | float (q : Rat)
  | str (s : String)
  | list (xs : List Json)
  | obj (fields : List (String × Json))
deriving Repr

/-- Python truthiness (`bool(v)`) on JSON values. -/
def truthy : Json → Bool
  | .null => false
  | .bool b => b
  | .int n => n != 0
  | .float q => q != 0
  | .str s => s != ""
  | .list xs => !xs.isEmpty
  | .obj fs => !fs.isEmpty

/-- Lookup of a key in a parsed JSON object (Python `dict` indexing: keys of a
parsed object are unique). -/
def jsonLookup (fields : List (String × Json)) (k : String) : Option Json :=
  (fields.find? (fun p => p.1 == k)).map Prod.snd

/-- Python `dict.get(k, d)` on a parsed JSON object. -/
def jsonGetD (fields : List (String × Json)) (k : String) (d : Json) : Json :=
  (jsonLookup fields k).getD d

/-- Model of a Python exception value, tagged with the text `str(e)` would
produce where the handler can observe it. -/
inductive PyExn where
  | badRequest
  | attributeError (msg : String)
  | typeError (msg : String)
  | indexError (msg : String)
  | keyError (msg : String)
  | requestsError (msg : String)
  | jsonDecodeError (msg : String)
  | binasciiError (msg : String)
deriving Repr, DecidableEq

/-- Python `str(e)` on a caught exception. -/
def exnStr : PyExn → String
  | .badRequest => "400 Bad Request: The browser (or proxy) sent a request that this server could not understand."
  | .attributeError m => m
  | .typeError m => m
  | .indexError m => m
  | .keyError m => m
  | .requestsError m => m
  | .jsonDecodeError m => m
  | .binasciiError m => m

/-- Python `v.get(k, d)`: succeeds on a dict, raises `AttributeError` on every
other value `request.json` can produce (e.g. `None` for a JSON `null` body). -/
def pyGet (data : Json) (k : String) (d : Json) : Except PyExn Json :=
  match data with
  | .obj fields => .ok (jsonGetD fields k d)
  | .null => .error (.attributeError "'NoneType' object has no attribute 'get'")
  | .bool _ => .error (.attributeError "'bool' object has no attribute 'get'")
  | .int _ => .error (.attributeError "'int' object has no attribute 'get'")
  | .float _ => .error (.attributeError "'float' object has no attribute 'get'")
  | .str _ => .error (.attributeError "'str' object has no attribute 'get'")
  | .list _ => .error (.attributeError "'list' object has no attribute 'get'")

/-- Python slicing `v[:n]`: takes the first `n` items of a string (code
points, as in Python) or list, raises `TypeError` on non-sliceable values. -/
def pySlice (v : Json) (n : Nat) : Except PyExn Json :=
  match v with
  | .str s => .ok (.str (String.mk (s.data.take n)))
  | .list xs => .ok (.list (xs.take n))
  | .null => .error (.typeError "'NoneType' object is not subscriptable")
  | .bool _ => .error (.typeError "'bool' object is not subscriptable")
  | .int _ => .error (.typeError "'int' object is not subscriptable")
  | .float _ => .error (.typeError "'float' object is not subscriptable")
  | .obj _ => .error (.typeError "unhashable type: 'slice'")

/-- Python `v[0]` as used on the decoded `audios` value. -/
def pyIndexZero (v : Json) : Except PyExn Json :=
  match v with
  | .list [] => .error (.indexError "list index out of range")
  | .list (x :: _) => .ok x
  | .str s =>
    match s.data with
    | [] => .error (.indexError "string index out of range")
    | c :: _ => .ok (.str (String.mk [c]))
  | .obj _ => .error (.keyError "0")
  | .null => .error (.typeError "'NoneType' object is not subscriptable")
  | .bool _ => .error (.typeError "'bool' object is not subscriptable")
  | .int _ => .error (.typeError "'int' object is not subscriptable")
  | .float _ => .error (.typeError "'float' object is not subscriptable")

/-- Process environment and working directory as the server sees them:
`vars` models `os.environ` (a variable may be set to the empty string, which
is distinct from being unset), `dotenv` models the `.env` file in the working
directory (`none` = the file does not exist, so `open` raises
`FileNotFoundError`; `some lines` = the file's lines as the `for line in f`
loop sees them, trailing newline included). -/
structure Env where
  vars : List (String × String)
  dotenv : Option (List String)

/-- Python `os.environ.get(name, '')`. -/
def envGet (env : Env) (name : String) : String :=
  (((env.vars.find? (fun p => p.1 == name)).map Prod.snd)).getD ""

/-- Python `line.split('=', 1)[1]` on the character list of a line:
everything after the first `'='` (the `.env` loop only applies it to lines
that start with `NAME=`, so a `'='` is present). -/
def afterFirstEq : List Char → List Char
  | [] => []
  | c :: rest => if c = '=' then rest else afterFirstEq rest

/-- Python `str.strip()`: remove leading and trailing whitespace (including
the line's trailing newline). -/
def pyStrip (s : String) : String :=
  String.mk (((s.data.dropWhile Char.isWhitespace).reverse.dropWhile
    Char.isWhitespace).reverse)

/-- The `.env` scanning loop of `tts_server.py` (lines 23-31 and 100-108):
take the first line starting with `name + "="`, and use
`line.split('=', 1)[1].strip()` as the value. -/
def dotenvScan (lines : List String) (name : String) : Option String :=
  (lines.find? (fun l => (name ++ "=").data.isPrefixOf l.data)).map
    (fun l => pyStrip (String.mk (afterFirstEq l.data)))

/-- Credential resolution as written twice in `tts_server.py`: the
environment variable first (`os.environ.get(name, '')`), and if that produced
a falsy value, a scan of the `.env` file; a missing file (`FileNotFoundError`)
leaves the credential empty. -/
def resolveCredential (env : Env) (name : String) : String :=
  let fromEnv := envGet env name
  if fromEnv ≠ "" then fromEnv
  else
    match env.dotenv with
    | none => ""
    | some lines => (dotenvScan lines name).getD ""

/-- The module-level `ELEVENLABS_API_KEY` global, resolved once from the
environment present at process startup (lines 20-31). -/
def ELEVENLABS_API_KEY (startupEnv : Env) : String :=
  resolveCredential startupEnv "VITE_ELEVENLABS_API_KEY"

/-- The `VOICES` dict (lines 36-41). -/
def VOICES : List (String × String) :=
  [("rachel", "21m00Tcm4TlvDq8ikWAM"),
   ("adam", "pNInz6obpgDQGcFmaJgB"),
   ("josh", "TxGEqnHWrfWFTfGW9XjX"),
   ("bella", "EXAVITQu4vr4xnSDxMaL")]

/-- `VOICES.get(s, VOICES['rachel'])` for a string key: the catalog entry if
present, the `rachel` identifier otherwise. -/
def voicesGetStr (s : String) : String :=
  ((VOICES.find? (fun p => p.1 == s)).map Prod.snd).getD "21m00Tcm4TlvDq8ikWAM"

/-- `VOICES.get(voice, VOICES['rachel'])` (line 57).  Any hashable value that
is not a key falls back to the default; an unhashable value (list, dict)
raises `TypeError` — outside the `try` block. -/
def voicesGet (v : Json) : Except PyExn String :=
  match v with
  | .str s => .ok (voicesGetStr s)
  | .list _ => .error (.typeError "unhashable type: 'list'")
  | .obj _ => .error (.typeError "unhashable type: 'dict'")
  | .null | .bool _ | .int _ | .float _ => .ok "21m00Tcm4TlvDq8ikWAM"

/-- Value of a base64-alphabet character. -/
def b64val (c : Char) : Option Nat :=
  if 'A' ≤ c ∧ c ≤ 'Z' then some (c.toNat - 65)
  else if 'a' ≤ c ∧ c ≤ 'z' then some (c.toNat - 71)
  else if '0' ≤ c ∧ c ≤ '9' then some (c.toNat + 4)
  else if c = '+' then some 62
  else if c = '/' then some 63
  else none

/-- Reassemble 6-bit groups into bytes (the final group of 2 or 3 values
comes from a padded quantum and yields 1 or 2 bytes). -/
def b64bytes : List Nat → List Nat
  | a :: b :: c :: d :: rest =>
    (a * 4 + b / 16) :: ((b % 16) * 16 + c / 4) :: ((c % 4) * 64 + d) :: b64bytes rest
  | [a, b] => [a * 4 + b / 16]
  | [a, b, c] => [a * 4 + b / 16, (b % 16) * 16 + c / 4]
  | _ => []

/-- Python `base64.b64decode(v)` (line 147): decodes an ASCII base64 string
to bytes, raises `binascii.Error` on bad padding and `TypeError` on
non-string arguments. -/
def b64decode (v : Json) : Except PyExn (List Nat) :=
  match v with
  | .str s =>
    let dataChars := s.data.filter (fun c => (b64val c).isSome || c == '=')
    if dataChars.length % 4 ≠ 0 then .error (.binasciiError "Incorrect padding")
    else .ok (b64bytes (s.data.filterMap b64val))
  | .list _ => .error (.typeError "argument should be a bytes-like object or ASCII string, not 'list'")
  | .obj _ => .error (.typeError "argument should be a bytes-like object or ASCII string, not 'dict'")
  | .null => .error (.typeError "argument should be a bytes-like object or ASCII string, not 'NoneType'")
  | .bool _ => .error (.typeError "argument should be a bytes-like object or ASCII string, not 'bool'")
  | .int _ => .error (.typeError "argument should be a bytes-like object or ASCII string, not 'int'")
  | .float _ => .error (.typeError "argument should be a bytes-like object or ASCII string, not 'float'")

/-- What `requests.post(...)` hands back when it does not raise:
`status` is `response.status_code`, `content` is the raw bytes
`response.content`, and `jsonBody` is what `response.json()` returns (or the
exception it raises on a non-JSON body). -/
structure UpstreamResp where
  status : Nat
  content : List Nat
  jsonBody : Except PyExn Json

/-- The outgoing ElevenLabs request (lines 62-78): URL voice id, API key
header, JSON payload, timeout in seconds. -/
structure ElevenReq where
  voiceId : String
  apiKey : String
  payload : Json
  timeout : Nat

/-- The outgoing Sarvam request (lines 123-138). -/
structure SarvamReq where
  apiKey : String
  payload : Json
  timeout : Nat

/-- The `json=` payload of the ElevenLabs call (lines 69-76), with the
already-sliced text value. -/
def ttsPayload (sliced : Json) : Json :=
  .obj [("text", sliced),
        ("model_id", .str "eleven_monolingual_v1"),
        ("voice_settings", .obj [("stability", .float (1/2)),
                                 ("similarity_boost", .float (3/4))])]

/-- The ElevenLabs request built by the handler. -/
def elevenRequestOf (apiKey voiceId : String) (sliced : Json) : ElevenReq :=
  ⟨voiceId, apiKey, ttsPayload sliced, 30⟩

/-- The `json=` payload of the Sarvam call (lines 129-136). -/
def sarvamPayload (sliced language : Json) : Json :=
  .obj [("text", sliced),
        ("target_language_code", language),
        ("speaker", .str "meera"),
        ("pitch", .int 0),
        ("pace", .float 1),
        ("loudness", .float 1)]

/-- The Sarvam request built by the handler. -/
def sarvamRequestOf (apiKey : String) (sliced language : Json) : SarvamReq :=
  ⟨apiKey, sarvamPayload sliced language, 30⟩

/-- Body of an HTTP response produced by a handler: a `jsonify(...)` JSON
value or a raw audio `Response` with its mimetype. -/
inductive RespBody where
  | json (j : Json)
  | audio (mimetype : String) (bytes : List Nat)
deriving Repr

/-- An HTTP response: status code, body, extra headers. -/
structure HttpResp where
  status : Nat
  body : RespBody
  headers : List (String × String)

/-- `jsonify({'error': msg})`. -/
def errBody (msg : String) : RespBody :=
  .json (.obj [("error", .str msg)])

/-- The body of an incoming HTTP request, as seen through `request.json`:
either unparseable (so `request.json` raises, outside any `try`) or a parsed
JSON value. -/
inductive ReqBody where
  | malformed
  | json (data : Json)

/-- Status-code check and success branch of the ElevenLabs call
(lines 80-87), applied to the outcome of `requests.post` (which itself may
have raised — a transport fault propagates). -/
def elevenUpstreamStep (r : Except PyExn UpstreamResp) : Except PyExn HttpResp :=
  match r with
  | .error e => .error e
  | .ok resp =>
    if resp.status ≠ 200 then
      .ok ⟨500, errBody ("ElevenLabs error: " ++ toString resp.status), []⟩
    else
      .ok ⟨200, .audio "audio/mpeg" resp.content, [("Content-Disposition", "inline")]⟩

/-- The `/tts` handler `text_to_speech` (lines 43-90).  `elevenKey` is the
module-level `ELEVENLABS_API_KEY` global; `up` models `requests.post`. -/
def text_to_speech (elevenKey : String) (body : ReqBody)
    (up : ElevenReq → Except PyExn UpstreamResp) : Except PyExn HttpResp :=
  match body with
  | .malformed => .error .badRequest
  | .json data =>
    match pyGet data "text" (.str "") with
    | .error e => .error e
    | .ok text =>
      match pyGet data "voice" (.str "rachel") with
      | .error e => .error e
      | .ok voice =>
        if !truthy text then .ok ⟨400, errBody "No text provided", []⟩
        else if elevenKey = "" then
          .ok ⟨500, errBody "ElevenLabs API key not configured", []⟩
        else
          match voicesGet voice with
          | .error e => .error e
          | .ok voiceId =>
            match ((match pySlice text 1000 with
                    | .error e => .error e
                    | .ok sliced =>
                      elevenUpstreamStep (up (elevenRequestOf elevenKey voiceId sliced)) :
                    Except PyExn HttpResp)) with
            | .ok r => .ok r
            | .error e => .ok ⟨500, errBody (exnStr e), []⟩

/-- Audio extraction and success branch of the Sarvam call (lines 143-150):
`response.json().get('audios', [{}])[0]`, truthiness check, base64 decode. -/
def sarvamAudioStep (resp : UpstreamResp) : Except PyExn HttpResp :=
  match resp.jsonBody with
  | .error e => .error e
  | .ok j =>
    match pyGet j "audios" (.list [.obj []]) with
    | .error e => .error e
    | .ok audios =>
      match pyIndexZero audios with
      | .error e => .error e
      | .ok audioData =>
        if truthy audioData then
          match b64decode audioData with
          | .error e => .error e
          | .ok audioBytes => .ok ⟨200, .audio "audio/wav" audioBytes, []⟩
        else .ok ⟨500, errBody "No audio returned", []⟩

/-- Status-code check of the Sarvam call (lines 140-141) followed by the
audio extraction. -/
def sarvamUpstreamStep (r : Except PyExn UpstreamResp) : Except PyExn HttpResp :=
  match r with
  | .error e => .error e
  | .ok resp =>
    if resp.status ≠ 200 then
      .ok ⟨500, errBody ("Sarvam error: " ++ toString resp.status), []⟩
    else sarvamAudioStep resp

/-- The `/tts/sarvam` handler `sarvam_tts` (lines 93-153).  Unlike `/tts`,
the credential is resolved from the environment and `.env` file *inside* the
handler, on every request (`env` is the environment at request time), and the
credential check precedes the reading of the request body. -/
def sarvam_tts (env : Env) (body : ReqBody)
    (up : SarvamReq → Except PyExn UpstreamResp) : Except PyExn HttpResp :=
  let key := resolveCredential env "VITE_SARVAM_API_KEY"
  if key = "" then .ok ⟨500, errBody "Sarvam API key not configured", []⟩
  else
    match body with
    | .malformed => .error .badRequest
    | .json data =>
      match pyGet data "text" (.str "") with
      | .error e => .error e
      | .ok text =>
        match pyGet data "language" (.str "en-IN") with
        | .error e => .error e
        | .ok language =>
          if !truthy text then .ok ⟨400, errBody "No text provided", []⟩
          else
            match ((match pySlice text 500 with
                    | .error e => .error e
                    | .ok sliced =>
                      sarvamUpstreamStep (up (sarvamRequestOf key sliced language)) :
                    Except PyExn HttpResp)) with
            | .ok r => .ok r
            | .error e => .ok ⟨500, errBody (exnStr e), []⟩

/-- The `/health` handler (lines 156-162).  It uses the module-level
`ELEVENLABS_API_KEY` global resolved at startup; its body cannot raise. -/
def health (elevenKey : String) : Except PyExn HttpResp :=
  .ok ⟨200, .json (.obj [("status", .str "ok"),
                         ("elevenlabs_configured", .bool (truthy (.str elevenKey)))]), []⟩

/-! Helper lemmas shared by several claims. -/

theorem pyGet_obj (fields : List (String × Json)) (k : String) (d : Json) :
    pyGet (.obj fields) k d = .ok (jsonGetD fields k d) := rfl

theorem truthy_str (s : String) : truthy (.str s) = (s != "") := rfl

theorem truthy_str_ne {s : String} (h : s ≠ "") : truthy (.str s) = true := by
  simp [truthy, h]

theorem voicesGetStr_rachel : voicesGetStr "rachel" = "21m00Tcm4TlvDq8ikWAM" := rfl

/-- Claim C1, counterexample.  A request to `POST /tts/sarvam` whose JSON
body has an empty `text` field, sent while the Sarvam credential is not
configured, is answered with HTTP 500 (the configuration error), not with
HTTP 400: in `sarvam_tts` the credential check precedes the empty-text
check. -/
theorem C1_counterexample :
    sarvam_tts ⟨[], none⟩ (.json (.obj [("text", .str "")]))
        (fun _ => .ok ⟨200, [], .ok .null⟩) =
      .ok ⟨500, errBody "Sarvam API key not configured", []⟩ := rfl

/-- Claim C1, amended: with empty or missing `text`, `POST /tts` returns
HTTP 400 with a JSON error body regardless of the credential, while
`POST /tts/sarvam` returns HTTP 400 only when the Sarvam credential is
configured (otherwise its credential check fires first and it returns
HTTP 500). -/
theorem C1_amended (key : String) (env : Env) (fields : List (String × Json))
    (upE : ElevenReq → Except PyExn UpstreamResp)
    (upS : SarvamReq → Except PyExn UpstreamResp)
    (htext : jsonLookup fields "text" = none ∨ jsonLookup fields "text" = some (.str ""))
    (hkey : resolveCredential env "VITE_SARVAM_API_KEY" ≠ "") :
    text_to_speech key (.json (.obj fields)) upE = .ok ⟨400, errBody "No text provided", []⟩ ∧
    sarvam_tts env (.json (.obj fields)) upS = .ok ⟨400, errBody "No text provided", []⟩ := by
  have htext' : jsonGetD fields "text" (.str "") = .str "" := by
    rcases htext with h | h <;> simp [jsonGetD, h]
  constructor
  · simp [text_to_speech, pyGet_obj, htext', truthy]
  · simp [sarvam_tts, hkey, pyGet_obj, htext', truthy]

/-- Claim C1, witness for the amended theorem. -/
theorem C1_amended_witness :
    text_to_speech "k" (.json (.obj [("voice", .str "adam")]))
        (fun _ => .ok ⟨200, [], .ok .null⟩) =
      .ok ⟨400, errBody "No text provided", []⟩ ∧
    sarvam_tts ⟨[("VITE_SARVAM_API_KEY", "s")], none⟩ (.json (.obj [("voice", .str "adam")]))
        (fun _ => .ok ⟨200, [], .ok .null⟩) =
      .ok ⟨400, errBody "No text provided", []⟩ :=
  C1_amended "k" ⟨[("VITE_SARVAM_API_KEY", "s")], none⟩ [("voice", .str "adam")] _ _
    (Or.inl rfl) (by decide)

/-- Claim C2, counterexample.  The Sarvam credential is not read once at
startup: `sarvam_tts` re-resolves it from the environment and `.env` file on
every request.  With a startup environment in which the credential was
configured as `"startup-key"` and a request-time environment in which it is
absent, the handler fails with the configuration error, so the credential
value used does not equal the value resolved at startup. -/
theorem C2_counterexample :
    resolveCredential ⟨[("VITE_SARVAM_API_KEY", "startup-key")], none⟩
        "VITE_SARVAM_API_KEY" = "startup-key" ∧
    sarvam_tts ⟨[], none⟩ (.json (.obj [("text", .str "hi")]))
        (fun _ => .ok ⟨200, [], .ok .null⟩) =
      .ok ⟨500, errBody "Sarvam API key not configured", []⟩ :=
  ⟨rfl, rfl⟩

/-- Claim C2, amended: the ElevenLabs credential is resolved once at startup
into the module-level global, but the Sarvam credential is re-resolved from
the environment and `.env` file inside the handler on every request; the
value a `/tts/sarvam` request uses is exactly the request-time resolution
(the handler depends on the request-time environment only through
`resolveCredential`). -/
theorem C2_amended (env₁ env₂ : Env) (body : ReqBody)
    (up : SarvamReq → Except PyExn UpstreamResp)
    (h : resolveCredential env₁ "VITE_SARVAM_API_KEY" =
         resolveCredential env₂ "VITE_SARVAM_API_KEY") :
    sarvam_tts env₁ body up = sarvam_tts env₂ body up := by
  simp only [sarvam_tts, h]

/-- Claim C2, witness for the amended theorem: two environments that differ
everywhere except in what the credential resolves to. -/
theorem C2_amended_witness :
    sarvam_tts ⟨[("VITE_SARVAM_API_KEY", "s")], none⟩ (.json (.obj [("text", .str "hi")]))
        (fun _ => .ok ⟨200, [], .ok .null⟩) =
      sarvam_tts ⟨[("OTHER", "x")], some ["VITE_SARVAM_API_KEY=s\n"]⟩
        (.json (.obj [("text", .str "hi")]))
        (fun _ => .ok ⟨200, [], .ok .null⟩) :=
  C2_amended _ _ _ _ (by rfl)

/-- Claim C3, counterexample.  With non-empty text, a configured credential
and an upstream 200 response whose `audios` value is the empty list, the
indexing `response.json().get('audios', [{}])[0]` raises `IndexError`, which
the `except` clause converts to the JSON body
`{"error": "list index out of range"}` — not `{"error": "No audio
returned"}` as the claim states. -/
theorem C3_counterexample :
    sarvam_tts ⟨[("VITE_SARVAM_API_KEY", "k")], none⟩
        (.json (.obj [("text", .str "namaste")]))
        (fun _ => .ok ⟨200, [], .ok (.obj [("audios", .list [])])⟩) =
      .ok ⟨500, errBody "list index out of range", []⟩ ∧
    errBody "list index out of range" ≠ errBody "No audio returned" := by
  refine ⟨rfl, ?_⟩
  simp [errBody]

/-- Claim C3, amended: with non-empty text, a configured credential and an
upstream 200 response, a missing `audios` key and a falsy first audio item
both yield HTTP 500 with `{"error": "No audio returned"}`, but an empty
`audios` list is answered with HTTP 500 carrying the caught `IndexError`
message `{"error": "list index out of range"}` instead. -/
theorem C3_amended (env : Env) (fields respFields : List (String × Json))
    (text : String) (content : List Nat)
    (hkey : resolveCredential env "VITE_SARVAM_API_KEY" ≠ "")
    (htext : jsonLookup fields "text" = some (.str text)) (hne : text ≠ "") :
    (jsonLookup respFields "audios" = none →
      sarvam_tts env (.json (.obj fields))
          (fun _ => .ok ⟨200, content, .ok (.obj respFields)⟩) =
        .ok ⟨500, errBody "No audio returned", []⟩) ∧
    (jsonLookup respFields "audios" = some (.list []) →
      sarvam_tts env (.json (.obj fields))
          (fun _ => .ok ⟨200, content, .ok (.obj respFields)⟩) =
        .ok ⟨500, errBody "list index out of range", []⟩) ∧
    (∀ x xs, jsonLookup respFields "audios" = some (.list (x :: xs)) → truthy x = false →
      sarvam_tts env (.json (.obj fields))
          (fun _ => .ok ⟨200, content, .ok (.obj respFields)⟩) =
        .ok ⟨500, errBody "No audio returned", []⟩) := by
  refine ⟨?_, ?_, ?_⟩
  · intro h
    simp [sarvam_tts, hkey, pyGet, jsonGetD, htext, truthy_str_ne hne, pySlice,
      sarvamUpstreamStep, sarvamAudioStep, pyIndexZero, h, truthy, hne]
  · intro h
    simp [sarvam_tts, hkey, pyGet, jsonGetD, htext, truthy_str_ne hne, pySlice,
      sarvamUpstreamStep, sarvamAudioStep, pyIndexZero, h, exnStr, errBody, hne]
  · intro x xs h hx
    simp [sarvam_tts, hkey, pyGet, jsonGetD, htext, truthy_str_ne hne, pySlice,
      sarvamUpstreamStep, sarvamAudioStep, pyIndexZero, h, hx, hne]

/-- Claim C3, witness for the amended theorem, at the three concrete
upstream shapes. -/
theorem C3_amended_witness :
    (sarvam_tts ⟨[("VITE_SARVAM_API_KEY", "k")], none⟩
        (.json (.obj [("text", .str "namaste")]))
        (fun _ => .ok ⟨200, [], .ok (.obj [])⟩) =
      .ok ⟨500, errBody "No audio returned", []⟩) ∧
    (sarvam_tts ⟨[("VITE_SARVAM_API_KEY", "k")], none⟩
        (.json (.obj [("text", .str "namaste")]))
        (fun _ => .ok ⟨200, [], .ok (.obj [("audios", .list [])])⟩) =
      .ok ⟨500, errBody "list index out of range", []⟩) ∧
    (sarvam_tts ⟨[("VITE_SARVAM_API_KEY", "k")], none⟩
        (.json (.obj [("text", .str "namaste")]))
        (fun _ => .ok ⟨200, [], .ok (.obj [("audios", .list [.str ""])])⟩) =
      .ok ⟨500, errBody "No audio returned", []⟩) := by
  obtain ⟨h1, h2, h3⟩ :=
    C3_amended ⟨[("VITE_SARVAM_API_KEY", "k")], none⟩ [("text", .str "namaste")] []
      "namaste" [] (by decide) rfl (by decide)
  refine ⟨?_, ?_, ?_⟩
  · exact C3_amended ⟨[("VITE_SARVAM_API_KEY", "k")], none⟩ [("text", .str "namaste")] []
      "namaste" [] (by decide) rfl (by decide) |>.1 rfl
  · exact (C3_amended ⟨[("VITE_SARVAM_API_KEY", "k")], none⟩ [("text", .str "namaste")]
      [("audios", .list [])] "namaste" [] (by decide) rfl (by decide)).2.1 rfl
  · exact (C3_amended ⟨[("VITE_SARVAM_API_KEY", "k")], none⟩ [("text", .str "namaste")]
      [("audios", .list [.str ""])] "namaste" [] (by decide) rfl (by decide)).2.2
      (.str "") [] rfl rfl

/-- Claim C5, confirmed.  For a request with a non-empty string `text` value
(and a configured credential, so the upstream call is reached), the text in
the request handed to the upstream provider is exactly the first 1000
characters of the input for `POST /tts` and the first 500 for
`POST /tts/sarvam`: input at or below the limit is forwarded unchanged, and
longer input is cut exactly at the limit to a prefix of the input. -/
theorem C5_confirmed (key text voice lang : String) (env : Env)
    (upE : ElevenReq → Except PyExn UpstreamResp)
    (upS : SarvamReq → Except PyExn UpstreamResp)
    (hkey : key ≠ "") (henv : resolveCredential env "VITE_SARVAM_API_KEY" ≠ "")
    (hne : text ≠ "") :
    text_to_speech key (.json (.obj [("text", .str text), ("voice", .str voice)])) upE =
      (match elevenUpstreamStep (upE (elevenRequestOf key (voicesGetStr voice)
          (.str (String.mk (text.data.take 1000))))) with
       | .ok r => .ok r
       | .error e => .ok ⟨500, errBody (exnStr e), []⟩) ∧
    sarvam_tts env (.json (.obj [("text", .str text), ("language", .str lang)])) upS =
      (match sarvamUpstreamStep (upS (sarvamRequestOf
          (resolveCredential env "VITE_SARVAM_API_KEY")
          (.str (String.mk (text.data.take 500))) (.str lang))) with
       | .ok r => .ok r
       | .error e => .ok ⟨500, errBody (exnStr e), []⟩) ∧
    (text.data.length ≤ 1000 → String.mk (text.data.take 1000) = text) ∧
    (text.data.length ≤ 500 → String.mk (text.data.take 500) = text) ∧
    (1000 ≤ text.data.length → (String.mk (text.data.take 1000)).data.length = 1000) ∧
    (500 ≤ text.data.length → (String.mk (text.data.take 500)).data.length = 500) ∧
    (String.mk (text.data.take 1000)).data <+: text.data ∧
    (String.mk (text.data.take 500)).data <+: text.data := by
  refine ⟨?_, ?_, ?_, ?_, ?_, ?_, ?_, ?_⟩
  · simp [text_to_speech, pyGet, jsonGetD, jsonLookup, truthy_str_ne hne, hkey,
      pySlice, voicesGet]
  · simp [sarvam_tts, henv, pyGet, jsonGetD, jsonLookup, truthy_str_ne hne, pySlice]
  · intro h
    simp [List.take_of_length_le h]
  · intro h
    simp [List.take_of_length_le h]
  · intro h
    simp [List.length_take, Nat.min_eq_left h]
    exact h
  · intro h
    simp [List.length_take, Nat.min_eq_left h]
    exact h
  · exact List.take_prefix 1000 text.data
  · exact List.take_prefix 500 text.data

/-- Claim C5, witness: a two-character text below both limits is forwarded
unchanged to both providers. -/
theorem C5_confirmed_witness :
    text_to_speech "k" (.json (.obj [("text", .str "hi"), ("voice", .str "adam")]))
        (fun _ => .ok ⟨200, [7], .ok .null⟩) =
      (match elevenUpstreamStep ((fun _ => .ok ⟨200, [7], .ok .null⟩)
          (elevenRequestOf "k" (voicesGetStr "adam")
            (.str (String.mk ("hi".data.take 1000))))) with
       | .ok r => .ok r
       | .error e => .ok ⟨500, errBody (exnStr e), []⟩) ∧
    String.mk ("hi".data.take 1000) = "hi" := by
  have h := C5_confirmed "k" "hi" "adam" "en-IN" ⟨[("VITE_SARVAM_API_KEY", "s")], none⟩
    (fun _ => .ok ⟨200, [7], .ok .null⟩) (fun _ => .ok ⟨200, [7], .ok .null⟩)
    (by decide) (by decide) (by decide)
  exact ⟨h.1, h.2.2.1 (by decide)⟩

/-- Claim C6, counterexample.  The handlers check `status_code != 200`, not
"non-2xx": an upstream response with the 2xx success status 201 does not
proceed to the success path but is converted to an HTTP 500 upstream
error. -/
theorem C6_counterexample :
    text_to_speech "k" (.json (.obj [("text", .str "hello")]))
        (fun _ => .ok ⟨201, [7], .ok .null⟩) =
      .ok ⟨500, errBody "ElevenLabs error: 201", []⟩ ∧
    (200 ≤ 201 ∧ 201 < 300) := ⟨rfl, by decide⟩

/-- Claim C6, amended: a synthesis request (valid text, configured
credential) fails with the upstream error — HTTP 500, message carrying the
upstream status code — exactly when the upstream status differs from 200
(so 2xx statuses other than 200 fail too); a 200 status proceeds, for
`/tts` directly to the audio response and for `/tts/sarvam` to the audio
extraction step. -/
theorem C6_amended (key text : String) (env : Env) (resp : UpstreamResp)
    (hkey : key ≠ "") (henv : resolveCredential env "VITE_SARVAM_API_KEY" ≠ "")
    (hne : text ≠ "") :
    (resp.status ≠ 200 →
      text_to_speech key (.json (.obj [("text", .str text)])) (fun _ => .ok resp) =
        .ok ⟨500, errBody ("ElevenLabs error: " ++ toString resp.status), []⟩ ∧
      sarvam_tts env (.json (.obj [("text", .str text)])) (fun _ => .ok resp) =
        .ok ⟨500, errBody ("Sarvam error: " ++ toString resp.status), []⟩) ∧
    (resp.status = 200 →
      text_to_speech key (.json (.obj [("text", .str text)])) (fun _ => .ok resp) =
        .ok ⟨200, .audio "audio/mpeg" resp.content, [("Content-Disposition", "inline")]⟩ ∧
      sarvam_tts env (.json (.obj [("text", .str text)])) (fun _ => .ok resp) =
        (match sarvamAudioStep resp with
         | .ok r => .ok r
         | .error e => .ok ⟨500, errBody (exnStr e), []⟩)) := by
  constructor
  · intro h
    constructor
    · simp [text_to_speech, pyGet, jsonGetD, jsonLookup, truthy_str_ne hne, hkey,
        voicesGet, pySlice, elevenUpstreamStep, h]
    · simp [sarvam_tts, henv, pyGet, jsonGetD, jsonLookup, truthy_str_ne hne, pySlice,
        sarvamUpstreamStep, h]
  · intro h
    constructor
    · simp [text_to_speech, pyGet, jsonGetD, jsonLookup, truthy_str_ne hne, hkey,
        voicesGet, pySlice, elevenUpstreamStep, h]
    · simp [sarvam_tts, henv, pyGet, jsonGetD, jsonLookup, truthy_str_ne hne, pySlice,
        sarvamUpstreamStep, h]

/-- Claim C6, witness for the amended theorem at statuses 404 and 200. -/
theorem C6_amended_witness :
    (text_to_speech "k" (.json (.obj [("text", .str "hello")]))
        (fun _ => .ok ⟨404, [], .ok .null⟩) =
      .ok ⟨500, errBody "ElevenLabs error: 404", []⟩ ∧
    sarvam_tts ⟨[("VITE_SARVAM_API_KEY", "s")], none⟩
        (.json (.obj [("text", .str "hello")]))
        (fun _ => .ok ⟨404, [], .ok .null⟩) =
      .ok ⟨500, errBody "Sarvam error: 404", []⟩) ∧
    text_to_speech "k" (.json (.obj [("text", .str "hello")]))
        (fun _ => .ok ⟨200, [9], .ok .null⟩) =
      .ok ⟨200, .audio "audio/mpeg" [9], [("Content-Disposition", "inline")]⟩ := by
  refine ⟨?_, ?_⟩
  · exact (C6_amended "k" "hello" ⟨[("VITE_SARVAM_API_KEY", "s")], none⟩
      ⟨404, [], .ok .null⟩ (by decide) (by decide) (by decide)).1 (by decide)
  · exact ((C6_amended "k" "hello" ⟨[("VITE_SARVAM_API_KEY", "s")], none⟩
      ⟨200, [9], .ok .null⟩ (by decide) (by decide) (by decide)).2 rfl).1

/-- Claim C7, confirmed.  Voice resolution through the catalog is total on
voice names: a name not in the catalog resolves (without error) to the
default `rachel` identifier `21m00Tcm4TlvDq8ikWAM`, a missing `voice` field
defaults to `"rachel"` which resolves to the same identifier, and a request
carrying an unknown voice name behaves exactly like one carrying
`"rachel"`. -/
theorem C7_confirmed (s : String) (fields : List (String × Json))
    (hs : s ∉ VOICES.map Prod.fst)
    (hmiss : jsonLookup fields "voice" = none) :
    voicesGet (.str s) = .ok "21m00Tcm4TlvDq8ikWAM" ∧
    voicesGetStr "rachel" = "21m00Tcm4TlvDq8ikWAM" ∧
    voicesGet (jsonGetD fields "voice" (.str "rachel")) = .ok "21m00Tcm4TlvDq8ikWAM" ∧
    (∀ v : String, ∃ vid, voicesGet (.str v) = .ok vid) ∧
    (∀ key text up,
      text_to_speech key (.json (.obj [("text", .str text), ("voice", .str s)])) up =
      text_to_speech key (.json (.obj [("text", .str text), ("voice", .str "rachel")])) up) := by
  have hfind : VOICES.find? (fun p => p.1 == s) = none := by
    rw [List.find?_eq_none]
    intro x hx h
    apply hs
    have hx1 : x.1 = s := by simpa using h
    rw [← hx1]
    exact List.mem_map_of_mem Prod.fst hx
  have h1 : voicesGetStr s = "21m00Tcm4TlvDq8ikWAM" := by
    simp [voicesGetStr, hfind]
  have h2 : voicesGetStr "rachel" = "21m00Tcm4TlvDq8ikWAM" := rfl
  refine ⟨by simp [voicesGet, h1], h2, ?_, fun v => ⟨voicesGetStr v, rfl⟩, ?_⟩
  · simp [jsonGetD, hmiss, voicesGet, h2]
  · intro key text up
    simp [text_to_speech, pyGet, jsonGetD, jsonLookup, voicesGet, h1, h2]

/-- Claim C7, witness: the unknown name `"zoe"` resolves to the default
identifier and a `/tts` request using it behaves like one using
`"rachel"`. -/
theorem C7_confirmed_witness :
    voicesGet (.str "zoe") = .ok "21m00Tcm4TlvDq8ikWAM" ∧
    text_to_speech "k" (.json (.obj [("text", .str "hi"), ("voice", .str "zoe")]))
        (fun _ => .ok ⟨200, [], .ok .null⟩) =
      text_to_speech "k" (.json (.obj [("text", .str "hi"), ("voice", .str "rachel")]))
        (fun _ => .ok ⟨200, [], .ok .null⟩) :=
  ⟨(C7_confirmed "zoe" [("text", .str "hi")] (by decide) rfl).1,
   (C7_confirmed "zoe" [("text", .str "hi")] (by decide) rfl).2.2.2.2 "k" "hi" _⟩

/-- Claim C8, counterexample.  When the environment variable is set to the
empty string — set, but empty — the config file is still scanned and its
value used: the environment variable being set does not prevent the file
value from being used. -/
theorem C8_counterexample :
    (Env.mk [("VITE_ELEVENLABS_API_KEY", "")]
        (some ["VITE_ELEVENLABS_API_KEY=filekey\n"])).vars.find?
        (fun p => p.1 == "VITE_ELEVENLABS_API_KEY") =
      some ("VITE_ELEVENLABS_API_KEY", "") ∧
    resolveCredential ⟨[("VITE_ELEVENLABS_API_KEY", "")],
        some ["VITE_ELEVENLABS_API_KEY=filekey\n"]⟩ "VITE_ELEVENLABS_API_KEY" =
      "filekey" ∧
    "filekey" ≠ "" := ⟨rfl, rfl, by decide⟩

/-- Claim C8, amended: the environment variable is read first and a
*non-empty* environment value wins, in which case the file is never
consulted; the `.env` file is scanned for the first `NAME=value` line when
the environment value is unset *or set to the empty string*; when the file
is absent (and the environment value is empty) the credential is
unconfigured. -/
theorem C8_amended (env : Env) (name : String) (lines : List String) :
    (envGet env name ≠ "" → resolveCredential env name = envGet env name) ∧
    (envGet env name = "" → env.dotenv = none → resolveCredential env name = "") ∧
    (envGet env name = "" → env.dotenv = some lines →
      resolveCredential env name = (dotenvScan lines name).getD "") := by
  refine ⟨fun h => ?_, fun h h2 => ?_, fun h h2 => ?_⟩
  · simp [resolveCredential, h]
  · simp [resolveCredential, h, h2]
  · simp [resolveCredential, h, h2]

/-- Claim C8, witness for the amended theorem: a non-empty environment value
shadows a file value; with no environment value the file value is used; with
neither, the credential resolves to empty. -/
theorem C8_amended_witness :
    resolveCredential ⟨[("VITE_SARVAM_API_KEY", "envkey")],
        some ["VITE_SARVAM_API_KEY=filekey\n"]⟩ "VITE_SARVAM_API_KEY" = "envkey" ∧
    resolveCredential ⟨[], none⟩ "VITE_SARVAM_API_KEY" = "" ∧
    resolveCredential ⟨[], some ["VITE_SARVAM_API_KEY=filekey\n"]⟩
        "VITE_SARVAM_API_KEY" =
      (dotenvScan ["VITE_SARVAM_API_KEY=filekey\n"] "VITE_SARVAM_API_KEY").getD "" := by
  refine ⟨?_, ?_, ?_⟩
  · have h := (C8_amended ⟨[("VITE_SARVAM_API_KEY", "envkey")],
      some ["VITE_SARVAM_API_KEY=filekey\n"]⟩ "VITE_SARVAM_API_KEY" []).1 (by decide)
    simpa [envGet] using h
  · exact (C8_amended ⟨[], none⟩ "VITE_SARVAM_API_KEY" []).2.1 rfl rfl
  · exact (C8_amended ⟨[], some ["VITE_SARVAM_API_KEY=filekey\n"]⟩ "VITE_SARVAM_API_KEY"
      ["VITE_SARVAM_API_KEY=filekey\n"]).2.2 rfl rfl

/-- Claim C9, confirmed.  `GET /health` never fails: it returns HTTP 200
with body `{"status": "ok", "elevenlabs_configured": b}`, and `b` is `true`
exactly when the startup-resolved ElevenLabs credential is non-empty. -/
theorem C9_confirmed (startupEnv : Env) :
    health (ELEVENLABS_API_KEY startupEnv) =
      .ok ⟨200, .json (.obj [("status", .str "ok"),
        ("elevenlabs_configured", .bool (ELEVENLABS_API_KEY startupEnv != ""))]), []⟩ ∧
    ((ELEVENLABS_API_KEY startupEnv != "") = true ↔
      ELEVENLABS_API_KEY startupEnv ≠ "") := by
  refine ⟨rfl, ?_⟩
  simp

/-- Claim C10, counterexample.  A truthy non-string `text` that is a
non-empty list does *not* make slicing raise: Python slices lists, so the
value is forwarded upstream, and with an upstream 200 response the endpoint
returns HTTP 200 audio — not HTTP 500 as the claim states for all truthy
non-string values. -/
theorem C10_counterexample :
    text_to_speech "k" (.json (.obj [("text", .list [.int 1])]))
        (fun _ => .ok ⟨200, [7], .ok .null⟩) =
      .ok ⟨200, .audio "audio/mpeg" [7], [("Content-Disposition", "inline")]⟩ ∧
    (200 : Nat) ≠ 500 := ⟨rfl, by decide⟩

/-- Claim C10, amended: with a configured credential, a truthy non-string
`text` passes the empty-text check (no 400); a non-sliceable value such as a
non-zero number raises `TypeError` inside the `try` block and yields
HTTP 500 with a JSON error body, while a non-empty list is sliced
successfully and forwarded upstream, the outcome then following the upstream
response. -/
theorem C10_amended (key : String) (n : Int) (x : Json) (xs : List Json)
    (up : ElevenReq → Except PyExn UpstreamResp)
    (hkey : key ≠ "") (hn : n ≠ 0) :
    text_to_speech key (.json (.obj [("text", .int n)])) up =
      .ok ⟨500, errBody "'int' object is not subscriptable", []⟩ ∧
    text_to_speech key (.json (.obj [("text", .list (x :: xs))])) up =
      (match elevenUpstreamStep (up (elevenRequestOf key "21m00Tcm4TlvDq8ikWAM"
          (.list ((x :: xs).take 1000)))) with
       | .ok r => .ok r
       | .error e => .ok ⟨500, errBody (exnStr e), []⟩) := by
  constructor
  · simp [text_to_speech, pyGet, jsonGetD, jsonLookup, truthy, hn, hkey, voicesGet,
      voicesGetStr_rachel, pySlice, exnStr, errBody]
  · simp [text_to_speech, pyGet, jsonGetD, jsonLookup, truthy, hkey, voicesGet,
      voicesGetStr_rachel, pySlice]

/-- Claim C10, witness for the amended theorem at `text = 5` and
`text = [1]`. -/
theorem C10_amended_witness :
    text_to_speech "k" (.json (.obj [("text", .int 5)]))
        (fun _ => .ok ⟨200, [7], .ok .null⟩) =
      .ok ⟨500, errBody "'int' object is not subscriptable", []⟩ ∧
    text_to_speech "k" (.json (.obj [("text", .list [.int 1])]))
        (fun _ => .ok ⟨200, [7], .ok .null⟩) =
      (match elevenUpstreamStep ((fun _ => .ok ⟨200, [7], .ok .null⟩)
          (elevenRequestOf "k" "21m00Tcm4TlvDq8ikWAM" (.list ([.int 1].take 1000)))) with
       | .ok r => .ok r
       | .error e => .ok ⟨500, errBody (exnStr e), []⟩) :=
  C10_amended "k" 5 (.int 1) [] (fun _ => .ok ⟨200, [7], .ok .null⟩)
    (by decide) (by decide)

end TtsServer
